import Mathlib

/-!
# Verification of the `corescrape` proxy-rotation core

A shallow embedding of the `corescrape` package (proxy scoring, the proxy
rotator's fetch loop, the thread-control state machine, the URL splitter and
the worker loop), together with theorems settling the specification's claims.

Modelling conventions:
* Python `int` is `Int` (priorities can in principle go negative, which is one
  of the questions under study); counters that are only ever incremented are
  `Nat`.
* Fallible Python code is embedded in `Except PyErr`; an uncaught Python
  exception is `Except.error`.
* `queue.PriorityQueue` is embedded as a list from which `takeMin` removes the
  first element of minimal priority (the heap's tie-breaking among equal
  priorities is arbitrary; no claim depends on it).
* The base class `CoreScrape` declares its log writer under the name-mangled
  attribute `_CoreScrape__log` while all call sites use `self.log`; that
  attribute-lookup defect is analysed separately (see `selfLogCall` and the
  theorem for claim C1).  In the embeddings of the other operations, logging
  is modelled as the base class's writer intends it: a side channel that does
  not touch any scraper state, i.e. a no-op on the embedded state.
-/

/-- The Python exception classes that the embedded code can raise. -/
inductive PyErr : Type
  | valueError
  | typeError
  | nameError      -- includes `UnboundLocalError`, a subclass of `NameError`
  | attributeError
  | coreScrapeInvalidProxy  -- `core.exceptions.CoreScrapeInvalidProxy`
  deriving DecidableEq, Repr

/-! ## Python string primitives

`str.split(sep)` and `str.strip()` are embedded directly on the character
list of a `String` (the built-in `String.splitOn` does not reduce in the
kernel).  Separators are single characters, which covers every separator the
code uses (`':'` for proxy addresses, the default `'\n'` for API bodies). -/

/-- Python `s.split(c)` for a one-character separator `c`: splitting the empty
string gives `[""]`, and adjacent separators give empty fields. -/
def splitChar (c : Char) : List Char → List (List Char)
  | [] => [[]]
  | x :: xs =>
      let r := splitChar c xs
      if x = c then [] :: r
      else
        match r with
        | [] => [[x]]
        | h :: t => (x :: h) :: t

/-- Python `s.split(c)` on `String`. -/
def pySplitOn (s : String) (sep : Char) : List String :=
  (splitChar sep s.data).map (fun l => ⟨l⟩)

/-- The characters Python's `str.strip()` removes. -/
def isPySpace (c : Char) : Bool :=
  c = ' ' ∨ c = '\t' ∨ c = '\n' ∨ c = '\r' ∨
    c = Char.ofNat 11 ∨ c = Char.ofNat 12

/-- Python `s.strip()`. -/
def pyStrip (s : String) : String :=
  ⟨((s.data.dropWhile isPySpace).reverse.dropWhile isPySpace).reverse⟩

/-! ## `corescrape/proxy/proxy.py` — class `Proxy` -/

/-- Embeds the attribute state of `proxy.Proxy`.  `ip` and `port` are the
name-mangled private attributes `__ip`/`__port`. -/
structure Proxy where
  address : String
  numtries : Nat
  ip : String
  port : String
  priority : Int
  max_on_a_row : Nat
  on_a_row : Nat
  ready : Bool
  deriving DecidableEq, Repr

namespace Proxy

/-- `Proxy.__init__`: splits `address` on `':'`; a split that does not give
exactly two parts raises `ValueError` (the `except ValueError` clause in the
source prints the address and re-raises the same `ValueError`).  Otherwise the
proxy starts with `priority = 10`, `max_on_a_row = 3`, `on_a_row = 0`,
`numtries = 0`, `ready = True`. -/
def init (address : String) : Except PyErr Proxy :=
  match pySplitOn address ':' with
  | [i, p] =>
      .ok { address := address, numtries := 0, ip := i, port := p,
            priority := 10, max_on_a_row := 3, on_a_row := 0, ready := true }
  | _ => .error .valueError

/-- `Proxy.down_priority(weight)`: adds `weight` to the priority and resets
the streak counter `on_a_row`. -/
def down_priority (p : Proxy) (weight : Int := 1) : Proxy :=
  { p with priority := p.priority + weight, on_a_row := 0 }

/-- `Proxy.up_priority(weight)`: if `on_a_row > max_on_a_row`, instead calls
`down_priority(max_on_a_row + 1)` ignoring `weight`; else if `priority > 0`,
subtracts `weight` from the priority and increments `on_a_row`. -/
def up_priority (p : Proxy) (weight : Int := 1) : Proxy :=
  if p.on_a_row > p.max_on_a_row then
    p.down_priority ((p.max_on_a_row : Int) + 1)
  else if p.priority > 0 then
    { p with priority := p.priority - weight, on_a_row := p.on_a_row + 1 }
  else p

/-- `Proxy.add_up_try()`: increments `numtries`, applies `down_priority()`,
and returns the new try count. -/
def add_up_try (p : Proxy) : Proxy × Nat :=
  let p' := { p with numtries := p.numtries + 1 }
  (p'.down_priority, p'.numtries)

end Proxy

/-- A promote (`up_priority`) or demote (`down_priority`) call with its
weight argument. -/
inductive PriorityOp : Type
  | promote (weight : Int)
  | demote (weight : Int)
  deriving DecidableEq, Repr

/-- Run one `PriorityOp` on a proxy. -/
def PriorityOp.apply (p : Proxy) : PriorityOp → Proxy
  | .promote w => p.up_priority w
  | .demote w => p.down_priority w

/-- Run a sequence of promote/demote calls on a proxy. -/
def runPriorityOps (p : Proxy) (ops : List PriorityOp) : Proxy :=
  ops.foldl PriorityOp.apply p

/-- The call shapes the spec's invariant quantifies over, restricted to the
default promote weight: `promote()` (weight 1) and `demote(w)` with a positive
integer weight. -/
def PriorityOp.defaultWeighted : PriorityOp → Bool
  | .promote w => w = 1
  | .demote w => 0 < w

/-- A freshly constructed proxy on a well-formed address (concrete instance
used for closed statements). -/
def freshProxy : Proxy :=
  { address := "1.2.3.4:8080", numtries := 0, ip := "1.2.3.4", port := "8080",
    priority := 10, max_on_a_row := 3, on_a_row := 0, ready := true }

theorem Proxy.init_fresh : Proxy.init "1.2.3.4:8080" = .ok freshProxy := by rfl

/-! ### Claim C3 -/

/-- `down_priority` with nonnegative weight never lowers a nonnegative
priority below 0. -/
lemma Proxy.down_priority_nonneg (p : Proxy) (w : Int) (hp : 0 ≤ p.priority)
    (hw : 0 ≤ w) : 0 ≤ (p.down_priority w).priority := by
  simp only [Proxy.down_priority]
  omega

/-- `up_priority` with weight 1 never lowers a nonnegative priority below 0:
the decrement is guarded by `priority > 0`. -/
lemma Proxy.up_priority_one_nonneg (p : Proxy) (hp : 0 ≤ p.priority) :
    0 ≤ (p.up_priority 1).priority := by
  simp only [Proxy.up_priority, Proxy.down_priority]
  split
  · simp only []
    omega
  · split
    · simp only []
      omega
    · exact hp

/-- Claim C3 (amended): starting from a freshly constructed proxy, any finite
sequence of `up_priority` calls with the default weight 1 and `down_priority`
calls with arbitrary positive weight keeps `priority ≥ 0`. -/
theorem priority_nonneg_of_default_weights (ops : List PriorityOp)
    (hops : ∀ op ∈ ops, op.defaultWeighted = true) :
    0 ≤ (runPriorityOps freshProxy ops).priority := by
  have key : ∀ (l : List PriorityOp) (p : Proxy), 0 ≤ p.priority →
      (∀ op ∈ l, op.defaultWeighted = true) →
      0 ≤ (runPriorityOps p l).priority := by
    intro l
    induction l with
    | nil => intro p hp _; exact hp
    | cons op rest ih =>
        intro p hp hl
        simp only [runPriorityOps, List.foldl_cons] at *
        have hrest : ∀ o ∈ rest, o.defaultWeighted = true := by
          intro o ho
          exact hl o (List.mem_cons_of_mem _ ho)
        apply ih (PriorityOp.apply p op) _ hrest
        have hop := hl op (List.mem_cons_self _ _)
        cases op with
        | promote w =>
            have hw : w = 1 := by
              simpa [PriorityOp.defaultWeighted] using hop
            subst hw
            exact Proxy.up_priority_one_nonneg p hp
        | demote w =>
            have hw : 0 < w := by
              simpa [PriorityOp.defaultWeighted] using hop
            simp only [PriorityOp.apply, Proxy.down_priority]
            omega
  exact key ops freshProxy (by norm_num [freshProxy]) hops

/-- Witness for claim C3's amended theorem at a concrete call sequence. -/
theorem priority_nonneg_of_default_weights_witness :
    0 ≤ (runPriorityOps freshProxy
      [.promote 1, .promote 1, .demote 5, .promote 1]).priority :=
  priority_nonneg_of_default_weights _ (by decide)

/-- Counterexample to claim C3 as stated: a single `up_priority` call with the
positive integer weight 11 takes a freshly constructed proxy from priority 10
to priority −1, below 0. -/
theorem priority_can_go_negative :
    (runPriorityOps freshProxy [.promote 11]).priority = -1 ∧
      (runPriorityOps freshProxy [.promote 11]).priority < 0 := by
  constructor <;> decide

/-! ### Claim C4 -/

/-- `n` consecutive `up_priority()` calls with the default weight. -/
def promotes (n : Nat) (p : Proxy) : Proxy :=
  Nat.rec p (fun _ q => q.up_priority 1) n

/-- Counterexample to claim C4 as stated: on a fresh proxy (streak cap 3) the
4th = (`streakCap`+1)th consecutive default `promote()` still strictly
*decreases* the priority (7 to 6); it does not increase it. -/
theorem fourth_promote_still_decreases :
    (promotes 3 freshProxy).priority = 7 ∧
      (promotes 4 freshProxy).priority = 6 ∧
      (promotes 4 freshProxy).priority < (promotes 3 freshProxy).priority := by
  refine ⟨by decide, by decide, by decide⟩

/-- Claim C4 (amended): on a fresh proxy it is the (`streakCap`+2)th = 5th
consecutive default `promote()` that strictly increases the priority, applying
`down_priority(streakCap + 1)`: it acts as `down_priority 4`, taking the
priority from 6 back to 10 and resetting the streak. -/
theorem fifth_promote_demotes :
    promotes 5 freshProxy = (promotes 4 freshProxy).down_priority 4 ∧
      (promotes 5 freshProxy).priority =
        (promotes 4 freshProxy).priority + 4 ∧
      (promotes 4 freshProxy).priority < (promotes 5 freshProxy).priority ∧
      (promotes 5 freshProxy).on_a_row = 0 := by
  refine ⟨by decide, by decide, by decide, by decide⟩

/-! ## `corescrape/threads/corescrape_thread.py` — `CoreScrapeThread.__split`

```python
n = self.nthreads
k, m = divmod(len(a), n)
split = [a[i * k + min(i, m):(i + 1) * k + min(i + 1, m)] for i in range(n)]
split = [part for part in split if part]
self.actualnthreads = len(split)
```
-/

/-- Python slice `a[s:e]` (for `s ≤ e ≤ len a`, which is the regime the
splitter stays in). -/
def pySlice (a : List α) (s e : Nat) : List α :=
  (a.drop s).take (e - s)

/-- The `i`-th share of `__split`'s list comprehension. -/
def shareSlice (a : List α) (n i : Nat) : List α :=
  let k := a.length / n
  let m := a.length % n
  pySlice a (i * k + min i m) ((i + 1) * k + min (i + 1) m)

/-- The comprehension `[a[...] for i in range(n)]`, before empty shares are
dropped. -/
def splitSharesRaw (a : List α) (n : Nat) : List (List α) :=
  (List.range n).map (shareSlice a n)

/-- `CoreScrapeThread.__split`: the comprehension with empty chunks dropped
(`if part`). -/
def threadSplit (a : List α) (n : Nat) : List (List α) :=
  (splitSharesRaw a n).filter (fun part => !part.isEmpty)

/-- `self.actualnthreads` after `__split`. -/
def actualnthreads (a : List α) (n : Nat) : Nat :=
  (threadSplit a n).length

lemma shareSlice_length (a : List α) (n i : Nat) (hn : 0 < n) (hi : i < n) :
    (shareSlice a n i).length =
      a.length / n + (if i < a.length % n then 1 else 0) := by
  obtain ⟨k, hk⟩ : ∃ k, a.length / n = k := ⟨_, rfl⟩
  obtain ⟨m, hm⟩ : ∃ m, a.length % n = m := ⟨_, rfl⟩
  have hL : n * k + m = a.length := by
    rw [← hk, ← hm]
    exact Nat.div_add_mod _ _
  have hmn : m < n := hm ▸ Nat.mod_lt _ hn
  have hik : i * k + k ≤ n * k := by
    have h := Nat.mul_le_mul_right (k := k) hi
    simpa [Nat.succ_mul] using h
  have h1 : (i + 1) * k = i * k + k := by ring
  simp only [shareSlice, pySlice, List.length_take, List.length_drop, hk, hm,
    h1, Nat.min_def]
  split_ifs <;> omega

lemma not_isEmpty_eq (l : List α) : (!l.isEmpty) = decide (0 < l.length) := by
  cases l <;> simp

lemma sum_shareLen (k m : Nat) :
    ∀ N, ((List.range N).map (fun i => k + if i < m then 1 else 0)).sum =
      N * k + min N m := by
  intro N
  induction N with
  | zero => simp
  | succ N ih =>
      rw [List.range_succ, List.map_append, List.sum_append]
      simp only [List.map_cons, List.map_nil, List.sum_cons, List.sum_nil, ih]
      have h1 : (N + 1) * k = N * k + k := by ring
      rw [h1, Nat.min_def, Nat.min_def]
      split_ifs <;> omega

lemma countP_range_eq (p : Nat → Bool) (m : Nat) :
    ∀ N, (∀ i < N, p i = decide (i < m)) →
      (List.range N).countP p = min N m := by
  intro N
  induction N with
  | zero => simp
  | succ N ih =>
      intro hp
      rw [List.range_succ, List.countP_append]
      have hN := hp N (Nat.lt_succ_self N)
      rw [ih (fun i hi => hp i (Nat.lt_succ_of_lt hi))]
      simp only [List.countP_cons, List.countP_nil, hN]
      rw [Nat.min_def, Nat.min_def]
      split_ifs <;> simp_all <;> omega

lemma splitSharesRaw_map_length (a : List α) (n : Nat) (hn : 0 < n) :
    (splitSharesRaw a n).map List.length =
      (List.range n).map
        (fun i => a.length / n + if i < a.length % n then 1 else 0) := by
  simp only [splitSharesRaw, List.map_map]
  apply List.map_congr_left
  intro i hi
  exact shareSlice_length a n i hn (List.mem_range.mp hi)

lemma threadSplit_eq_raw (a : List α) (n : Nat) (hn : 0 < n)
    (hnL : n ≤ a.length) : threadSplit a n = splitSharesRaw a n := by
  have hk1 : 1 ≤ a.length / n := (Nat.one_le_div_iff hn).mpr hnL
  apply List.filter_eq_self.mpr
  intro c hc
  obtain ⟨i, hi, rfl⟩ := List.mem_map.mp hc
  rw [not_isEmpty_eq, decide_eq_true_iff]
  rw [shareSlice_length a n i hn (List.mem_range.mp hi)]
  omega

/-- Claim C5: for a URL batch of length `L` split for `n` requested threads
(`0 < n`): if `n ≤ L` every produced share has size `L / n` or `L / n + 1`
(so sizes differ by at most 1), the sizes sum to `L`, and no share is empty;
if `n > L` the actual worker count `actualnthreads` equals `L`. -/
theorem threadSplit_balanced (a : List α) (n : Nat) (hn : 0 < n) :
    (n ≤ a.length →
      (∀ c ∈ threadSplit a n,
          c.length = a.length / n ∨ c.length = a.length / n + 1) ∧
      (∀ c ∈ threadSplit a n, ∀ d ∈ threadSplit a n,
          c.length ≤ d.length + 1) ∧
      ((threadSplit a n).map List.length).sum = a.length ∧
      (∀ c ∈ threadSplit a n, c ≠ [])) ∧
    (a.length < n → actualnthreads a n = a.length) := by
  constructor
  · intro hnL
    have hraw := threadSplit_eq_raw a n hn hnL
    have hsized : ∀ c ∈ threadSplit a n,
        c.length = a.length / n ∨ c.length = a.length / n + 1 := by
      intro c hc
      rw [hraw] at hc
      obtain ⟨i, hi, rfl⟩ := List.mem_map.mp hc
      rw [shareSlice_length a n i hn (List.mem_range.mp hi)]
      split_ifs <;> omega
    refine ⟨hsized, ?_, ?_, ?_⟩
    · intro c hc d hd
      rcases hsized c hc with h1 | h1 <;> rcases hsized d hd with h2 | h2 <;>
        omega
    · rw [hraw, splitSharesRaw_map_length a n hn, sum_shareLen]
      have hmn : a.length % n < n := Nat.mod_lt _ hn
      have hdm := Nat.div_add_mod a.length n
      rw [Nat.min_def]
      split_ifs <;> omega
    · intro c hc
      have hk1 : 1 ≤ a.length / n := (Nat.one_le_div_iff hn).mpr hnL
      rcases hsized c hc with h | h <;>
        (intro hnil; rw [hnil] at h; simp only [List.length_nil] at h; omega)
  · intro hLn
    have hk0 : a.length / n = 0 := Nat.div_eq_of_lt hLn
    have hm : a.length % n = a.length := Nat.mod_eq_of_lt hLn
    unfold actualnthreads threadSplit splitSharesRaw
    rw [← List.countP_eq_length_filter, List.countP_map]
    rw [countP_range_eq _ a.length n ?_, Nat.min_def, if_neg (by omega)]
    intro i hi
    simp only [Function.comp]
    rw [not_isEmpty_eq, shareSlice_length a n i hn hi, hk0, hm]
    rcases Nat.lt_or_ge i a.length with h | h
    · simp [h]
    · simp [Nat.not_lt.mpr h, h]

/-- Witness for claim C5 at the batch `[0, 1, 2]` with 2 requested threads. -/
theorem threadSplit_balanced_witness :
    (0 : Nat) < 2 ∧
      ((2 ≤ ([0, 1, 2] : List Nat).length →
        (∀ c ∈ threadSplit ([0, 1, 2] : List Nat) 2,
            c.length = ([0, 1, 2] : List Nat).length / 2 ∨
              c.length = ([0, 1, 2] : List Nat).length / 2 + 1) ∧
        (∀ c ∈ threadSplit ([0, 1, 2] : List Nat) 2,
            ∀ d ∈ threadSplit ([0, 1, 2] : List Nat) 2,
              c.length ≤ d.length + 1) ∧
        ((threadSplit ([0, 1, 2] : List Nat) 2).map List.length).sum =
            ([0, 1, 2] : List Nat).length ∧
        (∀ c ∈ threadSplit ([0, 1, 2] : List Nat) 2, c ≠ [])) ∧
      (([0, 1, 2] : List Nat).length < 2 →
        actualnthreads ([0, 1, 2] : List Nat) 2 = ([0, 1, 2] : List Nat).length)) :=
  ⟨by decide, threadSplit_balanced [0, 1, 2] 2 (by decide)⟩

deriving instance DecidableEq for Except

/-! ## `corescrape/threads/corescrape_event.py` — class `States`

The source encodes each state as a list `[index, is_sentenced?,
produce_traceback?, set_event?]` whose property slots hold the codes
`NONE = 0`, `SENTENCED = 1`, `TRACEBACK = 2`, `SETEVENT = 3`, read back at
the property indexes `IDX, IDX_SENTENCED, IDX_TRACEBACK, IDX_SETEVENT =
range(4)`. -/

/-- The eight class attributes of `States`. -/
inductive StateName : Type
  | STARTED
  | EXECUTING
  | REFRESH_PROXIES
  | ABORT_THREAD
  | ABORT_USER
  | FINISHED
  | TIMEOUT
  | OUT_OF_PROXIES
  deriving DecidableEq, Repr, Fintype

/-- The property codes from the source. -/
def pNONE : Nat := 0
def pSENTENCED : Nat := 1
def pTRACEBACK : Nat := 2
def pSETEVENT : Nat := 3

/-- The property indexes `IDX, IDX_SENTENCED, IDX_TRACEBACK, IDX_SETEVENT`. -/
def IDX : Nat := 0
def IDX_SENTENCED : Nat := 1
def IDX_TRACEBACK : Nat := 2
def IDX_SETEVENT : Nat := 3

/-- The literal rows of the `States` table
(`state = [index, is_sentenced?, produce_traceback?, set_event?]`). -/
def stateRow : StateName → List Nat
  | .STARTED => [1, pNONE, pNONE, pNONE]
  | .EXECUTING => [2, pNONE, pNONE, pNONE]
  | .REFRESH_PROXIES => [3, pNONE, pNONE, pSETEVENT]
  | .ABORT_THREAD => [4, pSENTENCED, pTRACEBACK, pSETEVENT]
  | .ABORT_USER => [5, pSENTENCED, pNONE, pSETEVENT]
  | .FINISHED => [6, pSENTENCED, pNONE, pNONE]
  | .TIMEOUT => [7, pNONE, pNONE, pSETEVENT]
  | .OUT_OF_PROXIES => [8, pNONE, pNONE, pSETEVENT]

/-- Every state name, in definition order. -/
def allStates : List StateName :=
  [.STARTED, .EXECUTING, .REFRESH_PROXIES, .ABORT_THREAD, .ABORT_USER,
   .FINISHED, .TIMEOUT, .OUT_OF_PROXIES]

/-- `States.__check_prop`: read one property slot of the current state's
row. -/
def checkProp (s : StateName) (prop : Nat) : Nat :=
  (stateRow s).getD prop 0

/-- The `is_sentenced` test: `__check_prop(IDX_SENTENCED) == SENTENCED`. -/
def isSentencedState (s : StateName) : Bool :=
  checkProp s IDX_SENTENCED == pSENTENCED

/-- The `traceback` test: `__check_prop(IDX_TRACEBACK) == TRACEBACK`. -/
def producesTraceback (s : StateName) : Bool :=
  checkProp s IDX_TRACEBACK == pTRACEBACK

/-- The `set_event` test: `__check_prop(IDX_SETEVENT) == SETEVENT`. -/
def setsEvent (s : StateName) : Bool :=
  checkProp s IDX_SETEVENT == pSETEVENT

/-- The observable state of a `CoreScrapeEvent`: the shared boolean flag (the
`threading.Event`), the current state, and the number of traceback dumps
emitted so far (`print_exc` calls). -/
structure EventState where
  flag : Bool
  curstate : StateName
  dumps : Nat
  deriving DecidableEq, Repr

/-- `States.set_event`: sets the shared flag iff the current state's
`set_event?` slot is `SETEVENT`. -/
def setEventIfNeeded (st : EventState) : EventState :=
  if setsEvent st.curstate then { st with flag := true } else st

/-- `States.traceback`: emits a stack dump iff the current state's
`produce_traceback?` slot is `TRACEBACK`. -/
def doTraceback (st : EventState) : EventState :=
  if producesTraceback st.curstate then { st with dumps := st.dumps + 1 }
  else st

/-- The dynamically added `set_<STATE>` method: assigns `curstate`, logs the
transition (no-op on this state), calls `set_event()` and `traceback()`. -/
def setState (k : StateName) (st : EventState) : EventState :=
  doTraceback (setEventIfNeeded { st with curstate := k })

/-- The event as freshly constructed: flag cleared, state `STARTED`. -/
def initialEvent : EventState :=
  { flag := false, curstate := .STARTED, dumps := 0 }

/-! ### Claim C6 -/

/-- Claim C6: `States` has exactly the eight listed states; `set_<STATE>`
forces the shared flag to true iff the target state is one of
`REFRESH_PROXIES`, `OUT_OF_PROXIES`, `TIMEOUT`, `ABORT_THREAD`, `ABORT_USER`
(otherwise the flag is left as it was); the sentenced states are exactly
`ABORT_THREAD`, `ABORT_USER`, `FINISHED`; and a traceback dump is emitted on
entering `ABORT_THREAD` and no other state. -/
theorem states_table_exact :
    (allStates.Nodup ∧ allStates.length = 8 ∧ ∀ s : StateName, s ∈ allStates) ∧
    (∀ (s : StateName) (st : EventState),
        (setState s st).flag = (st.flag || setsEvent s)) ∧
    (∀ s : StateName, setsEvent s = true ↔
        s ∈ [StateName.REFRESH_PROXIES, .OUT_OF_PROXIES, .TIMEOUT,
             .ABORT_THREAD, .ABORT_USER]) ∧
    (∀ s : StateName, isSentencedState s = true ↔
        s ∈ [StateName.ABORT_THREAD, .ABORT_USER, .FINISHED]) ∧
    (∀ (s : StateName) (st : EventState),
        (setState s st).dumps =
          if s = .ABORT_THREAD then st.dumps + 1 else st.dumps) := by
  refine ⟨⟨by decide, by decide, ?_⟩, ?_, by decide, by decide, ?_⟩
  · intro s
    cases s <;> decide
  · intro s st
    cases s <;>
      simp [setState, doTraceback, setEventIfNeeded, setsEvent,
        producesTraceback, checkProp, stateRow, pSETEVENT, pTRACEBACK, pNONE,
        IDX_SETEVENT, IDX_TRACEBACK]
  · intro s st
    cases s <;>
      simp [setState, doTraceback, setEventIfNeeded, setsEvent,
        producesTraceback, checkProp, stateRow, pSETEVENT, pTRACEBACK, pNONE,
        pSENTENCED, IDX_SETEVENT, IDX_TRACEBACK]

/-! ## `corescrape/core/__init__.py` — class `CoreScrape` and `self.log`

Python name mangling: an identifier with at least two leading underscores and
at most one trailing underscore, bound in a class body, is stored under
`_<ClassName><identifier>`. -/

/-- Python class-body name mangling. -/
def pyMangle (cls name : String) : String :=
  if name.data.take 2 = ['_', '_'] ∧ ¬ name.data.reverse.take 2 = ['_', '_']
  then "_" ++ cls ++ name
  else name

/-- The attribute names class `CoreScrape` defines (its two `def`s, after
mangling); no other attribute is ever bound on it or its subclasses under the
name `log`. -/
def coreScrapeAttrs : List String :=
  [pyMangle "CoreScrape" "__init__", pyMangle "CoreScrape" "__log"]

/-- A call `self.log(msg)` on any `CoreScrape` subclass instance: Python
first looks the name `log` up on the instance and its classes, raising
`AttributeError` when it is absent — before the writer's body (whose
`if self.logoperator:` guard would make a missing Logger a no-op) can run.
`hasLogger` records whether a Logger was injected; it cannot influence the
lookup. -/
def selfLogCall (attrs : List String) (_hasLogger : Bool) : Except PyErr Unit :=
  if "log" ∈ attrs then .ok () else .error .attributeError

/-! ### Claim C1 -/

/-- Claim C1 fails on the code: the base class's writer is bound under the
mangled name `_CoreScrape__log`, the name `log` is not an attribute of
`CoreScrape`, and therefore every `self.log(...)` call — performed by
`Rotator.retrieve`/`request` and the worker pool's operations on every state
transition, proxy disposal and fetch outcome — raises `AttributeError`, with
a Logger configured exactly as without one. -/
theorem selfLog_raises_attributeError :
    pyMangle "CoreScrape" "__log" = "_CoreScrape__log" ∧
    "log" ∉ coreScrapeAttrs ∧
    (∀ hasLogger : Bool,
        selfLogCall coreScrapeAttrs hasLogger = .error .attributeError) := by
  refine ⟨by decide, by decide, ?_⟩
  intro hasLogger
  cases hasLogger <;> decide

/-! ## `corescrape/proxy/rotator.py` — `Rotator.request` (the fetch loop) -/

/-- An HTTP response as the fetch loop observes it: the status code and
whether the body contains one of the configured ban-marker phrases
(`any([ignmsg in page.text for ignmsg in self.ignoremsgs])`). -/
structure Page where
  status : Nat
  banned : Bool
  deriving DecidableEq, Repr

/-- The classified outcome of the `requests.get` dispatched by
`Rotator.__request` on one loop iteration: a proxy-level error
(`ProxyError`/`Timeout`/`TooManyRedirects`), a connection error
(`SSLError`/`InvalidHeader`/`ConnectionError`), a communication error
(`ChunkedEncodingError`), or a response. -/
inductive FetchOutcome : Type
  | proxyErr
  | connErr
  | commErr
  | response (page : Page)
  deriving DecidableEq, Repr

/-- `__get_proxy`/`PriorityQueue.get`: `None` when the pool is empty,
otherwise remove and return an element of minimal `priority` (the earliest
among the minima; the heap's tie-break among equal priorities is
arbitrary). -/
def takeMin : List Proxy → Option (Proxy × List Proxy)
  | [] => none
  | p :: rest =>
      match takeMin rest with
      | none => some (p, [])
      | some (q, rest') =>
          if p.priority ≤ q.priority then some (p, rest)
          else some (q, p :: rest')

/-- The rotator configuration the fetch loop reads.  Dynamic proxy discovery
is left unconfigured (`dynamic_proxy_conf=None`, the constructor's default),
under which `__treat_new_proxy`'s whole body is skipped
(`if self.dynamic_proxy_key is not None`). -/
structure RotatorCfg where
  maxtriesproxy : Nat
  deriving DecidableEq, Repr

/-- The rotator state the fetch loop reads and writes: the proxy pool and the
shared event. -/
structure RotState where
  pool : List Proxy
  event : EventState
  deriving DecidableEq, Repr

/-- `Rotator.request(url, event, threadid)`.  `outs` supplies the classified
transport outcome of each successive iteration's request; the source's
`while True` loop is unbounded, so an exhausted `outs` cuts the loop off and
stands for "no further observable behaviour".  Each iteration: break with no
result if the event is set; draw a proxy, transitioning to `OUT_OF_PROXIES`
and breaking if the pool is empty; (`__treat_new_proxy` is a no-op, discovery
unconfigured;) dispatch; on a proxy error charge `add_up_try` and reinsert
only while under `maxtriesproxy`; on a connection/communication error drop
the proxy; on a 403 response `down_priority(10)` and reinsert; on a banned
body drop the proxy; otherwise `up_priority()`, reinsert and return the
page. -/
def request (cfg : RotatorCfg) (outs : List FetchOutcome) (st : RotState) :
    Option Page × RotState :=
  match outs with
  | [] => (none, st)
  | out :: rest =>
      if st.event.flag then (none, st)
      else
        match takeMin st.pool with
        | none =>
            (none, { st with event := setState .OUT_OF_PROXIES st.event })
        | some (curproxy, pool') =>
            match out with
            | .proxyErr =>
                let r := curproxy.add_up_try
                if r.2 < cfg.maxtriesproxy then
                  request cfg rest { st with pool := pool' ++ [r.1] }
                else
                  request cfg rest { st with pool := pool' }
            | .connErr => request cfg rest { st with pool := pool' }
            | .commErr => request cfg rest { st with pool := pool' }
            | .response page =>
                if page.status = 403 then
                  request cfg rest
                    { st with pool := pool' ++ [curproxy.down_priority 10] }
                else if !page.banned then
                  (some page,
                   { st with pool := pool' ++ [curproxy.up_priority 1] })
                else
                  request cfg rest { st with pool := pool' }

lemma setsEvent_OUT_OF_PROXIES : setsEvent .OUT_OF_PROXIES = true := by decide

lemma producesTraceback_OUT_OF_PROXIES :
    producesTraceback .OUT_OF_PROXIES = false := by decide

/-! ### Claim C7 -/

/-- Claim C7: if the shared signal is already set at loop entry,
`Rotator.request` returns no result immediately, leaving the whole state
(pool included — no proxy is drawn) untouched; and if the pool is empty when
a proxy is to be drawn, it transitions the state machine to `OUT_OF_PROXIES`
— which sets the shared signal — and returns no result, raising no
exception. -/
theorem request_signal_and_out_of_proxies (cfg : RotatorCfg)
    (outs : List FetchOutcome) (st : RotState) :
    (st.event.flag = true → request cfg outs st = (none, st)) ∧
    (∀ out rest, outs = out :: rest → st.event.flag = false → st.pool = [] →
      request cfg outs st =
          (none, { st with event := setState .OUT_OF_PROXIES st.event }) ∧
        (setState .OUT_OF_PROXIES st.event).flag = true ∧
        (setState .OUT_OF_PROXIES st.event).curstate = .OUT_OF_PROXIES) := by
  constructor
  · intro hflag
    cases outs with
    | nil => rfl
    | cons out rest => simp [request, hflag]
  · rintro out rest rfl hflag hpool
    refine ⟨?_, ?_, ?_⟩
    · simp [request, hflag, hpool, takeMin]
    · simp [setState, setEventIfNeeded, doTraceback, setsEvent_OUT_OF_PROXIES,
        producesTraceback_OUT_OF_PROXIES]
    · simp [setState, setEventIfNeeded, doTraceback, setsEvent_OUT_OF_PROXIES,
        producesTraceback_OUT_OF_PROXIES]

/-- A call with the shared signal already set. -/
def sigSetState : RotState :=
  { pool := [freshProxy],
    event := { flag := true, curstate := .EXECUTING, dumps := 0 } }

/-- A call on an exhausted pool with the signal clear. -/
def emptyPoolState : RotState :=
  { pool := [],
    event := { flag := false, curstate := .EXECUTING, dumps := 0 } }

/-- Witness for claim C7 at concrete states. -/
theorem request_signal_and_out_of_proxies_witness :
    (request ⟨2⟩ [.proxyErr] sigSetState = (none, sigSetState)) ∧
    (request ⟨2⟩ [.proxyErr] emptyPoolState =
        (none,
         { emptyPoolState with
            event := setState .OUT_OF_PROXIES emptyPoolState.event }) ∧
      (setState .OUT_OF_PROXIES emptyPoolState.event).flag = true ∧
      (setState .OUT_OF_PROXIES emptyPoolState.event).curstate =
        .OUT_OF_PROXIES) :=
  ⟨(request_signal_and_out_of_proxies ⟨2⟩ [.proxyErr] sigSetState).1 rfl,
   (request_signal_and_out_of_proxies ⟨2⟩ [.proxyErr] emptyPoolState).2
     .proxyErr [] rfl rfl rfl⟩

/-! ### Claim C8 -/

/-- Claim C8: on a fetch iteration whose response has HTTP status 403, the
checked-out proxy's priority is increased by exactly 10 with its streak
reset (`down_priority(10)`), the proxy is reinserted into the pool — so it
remains selectable by later draws — and the loop retries from the top on the
updated state. -/
theorem request_403_demotes_and_reinserts (cfg : RotatorCfg)
    (rest : List FetchOutcome) (st : RotState) (page : Page)
    (curproxy : Proxy) (pool' : List Proxy)
    (hflag : st.event.flag = false)
    (htake : takeMin st.pool = some (curproxy, pool'))
    (hstatus : page.status = 403) :
    request cfg (.response page :: rest) st =
      request cfg rest
        { st with pool := pool' ++ [curproxy.down_priority 10] } ∧
    (curproxy.down_priority 10).priority = curproxy.priority + 10 ∧
    (curproxy.down_priority 10).on_a_row = 0 ∧
    curproxy.down_priority 10 ∈ pool' ++ [curproxy.down_priority 10] := by
  refine ⟨?_, ?_, ?_, ?_⟩
  · simp [request, hflag, htake, hstatus]
  · simp [Proxy.down_priority]
  · simp [Proxy.down_priority]
  · simp

/-- Witness for claim C8: a 403 response against a one-proxy pool. -/
theorem request_403_demotes_and_reinserts_witness :
    request ⟨2⟩ [.response ⟨403, false⟩]
        { pool := [freshProxy],
          event := { flag := false, curstate := .EXECUTING, dumps := 0 } } =
      request ⟨2⟩ []
        { pool := [] ++ [freshProxy.down_priority 10],
          event := { flag := false, curstate := .EXECUTING, dumps := 0 } } ∧
    (freshProxy.down_priority 10).priority = freshProxy.priority + 10 ∧
    (freshProxy.down_priority 10).on_a_row = 0 ∧
    freshProxy.down_priority 10 ∈ [] ++ [freshProxy.down_priority 10] :=
  request_403_demotes_and_reinserts ⟨2⟩ [] _ ⟨403, false⟩ freshProxy []
    rfl rfl rfl

/-! ## The dynamically generated state methods and the worker loop

`States.__dfeasible_states` collects, via `getmembers`, the non-dunder,
non-callable class attributes of `States` — exactly the eight state rows —
and `States.__add_methods` then binds one `is_<NAME>` and one `set_<NAME>`
method per collected name.  No other `set_` attribute ever exists on a
`States` instance. -/

/-- The keys of `self.dstates` (in `getmembers`'s alphabetical order). -/
def dstatesKeys : List String :=
  ["ABORT_THREAD", "ABORT_USER", "EXECUTING", "FINISHED", "OUT_OF_PROXIES",
   "REFRESH_PROXIES", "STARTED", "TIMEOUT"]

/-- The names the dynamically added `set_` methods are bound under. -/
def setMethodNames : List String :=
  dstatesKeys.map (fun k => "set_" ++ k)

/-- What `self.rotator.request(url, ...)` produced for one URL, as the worker
observes it: an uncaught exception (the worker's bare `except`), no page, or
a page together with what `self.parser.parse(page, ...)` would extract from
it. -/
inductive UrlOutcome : Type
  | exc
  | noPage
  | gotPage (page : Page) (parsed : List String)
  deriving DecidableEq, Repr

/-- One entry of a worker's accumulated result list `res`: a whole page
(no parser configured), or a `{url: ...}` record. -/
inductive WorkItem : Type
  | rawPage (page : Page)
  | keyed (url : String) (val : Option (List String))
  deriving DecidableEq, Repr

/-- The `for url in data` loop of `CoreScrapeThread.__iterate`: break when
the shared event is set; on an exception from `request`, `set_ABORT_THREAD()`
and break; skip a `None` page; with no parser append the raw page; on a 404
record `{url: None}`; on an empty parse skip; otherwise record
`{url: parsed}`.  The per-URL `request` call is abstracted by its outcome
`env url`; event transitions the rotator itself performs inside `request`
only end the loop earlier, which the `env`/flag combination already
represents. -/
def iterateLoop (hasParser : Bool) (env : String → UrlOutcome) :
    List String → EventState → List WorkItem → List WorkItem × EventState
  | [], ev, res => (res, ev)
  | url :: rest, ev, res =>
      if ev.flag then (res, ev)
      else
        match env url with
        | .exc => (res, setState .ABORT_THREAD ev)
        | .noPage => iterateLoop hasParser env rest ev res
        | .gotPage page parsed =>
            if !hasParser then
              iterateLoop hasParser env rest ev (res ++ [.rawPage page])
            else if page.status = 404 then
              iterateLoop hasParser env rest ev (res ++ [.keyed url none])
            else if parsed = [] then
              iterateLoop hasParser env rest ev res
            else
              iterateLoop hasParser env rest ev
                (res ++ [.keyed url (some parsed)])

/-- `CoreScrapeThread.__check_am_i_the_last`: when the shared results queue
holds exactly one item, call `self.event.state.set_DUTY_FREE()` — an
attribute lookup on the dynamically generated method table. -/
def check_am_i_the_last (queue : List (List WorkItem)) : Except PyErr Unit :=
  if queue.length = 1 then
    if "set_DUTY_FREE" ∈ setMethodNames then .ok () else .error .attributeError
  else .ok ()

/-- One worker's whole run, the thread target
`lambda q, *args: q.put(self.__iterate(*args))`: run the loop, then
`__check_am_i_the_last()`, then push the accumulated list.  An exception from
the check propagates out of `__iterate`, so `q.put` never runs and the queue
is left as it was. -/
def workerRun (hasParser : Bool) (env : String → UrlOutcome)
    (urls : List String) (ev : EventState) (queue : List (List WorkItem)) :
    Except PyErr (List (List WorkItem)) × EventState :=
  let r := iterateLoop hasParser env urls ev []
  match check_am_i_the_last queue with
  | .error e => (.error e, r.2)
  | .ok _ => (.ok (queue ++ [r.1]), r.2)

/-! ### Claim C9 -/

/-- Claim C9: `DUTY_FREE` is not among the defined states, so no
`set_DUTY_FREE` method is ever generated; whenever a worker finishes its URL
share while the shared results queue holds exactly one item,
`__check_am_i_the_last` raises `AttributeError` inside the worker and the
worker's accumulated result list is never pushed onto the queue. -/
theorem workerRun_last_loses_results (hasParser : Bool)
    (env : String → UrlOutcome) (urls : List String) (ev : EventState)
    (queue : List (List WorkItem)) (hq : queue.length = 1) :
    "set_DUTY_FREE" ∉ setMethodNames ∧
    (workerRun hasParser env urls ev queue).1 = .error .attributeError := by
  have hmem : "set_DUTY_FREE" ∉ setMethodNames := by decide
  refine ⟨hmem, ?_⟩
  simp [workerRun, check_am_i_the_last, hq, hmem]

/-- Witness for claim C9: an idle worker over an empty share, with one result
list already in the queue. -/
theorem workerRun_last_loses_results_witness :
    "set_DUTY_FREE" ∉ setMethodNames ∧
    (workerRun false (fun _ => .noPage) [] initialEvent [[]]).1 =
      .error .attributeError :=
  workerRun_last_loses_results false (fun _ => .noPage) [] initialEvent
    [[]] rfl

/-! ## `corescrape/proxy/rotator.py` — `Rotator.retrieve` and `__put_proxy` -/

/-- `Rotator.__put_proxy`: construct a `Proxy`; insert it when truthy
(`ready`); swallow only `CoreScrapeInvalidProxy` (`except
CoreScrapeInvalidProxy: pass`) — any other exception, in particular the
`ValueError` that `Proxy.__init__` actually re-raises on a malformed address,
propagates. -/
def putProxy (pool : List Proxy) (addr : String) : Except PyErr (List Proxy) :=
  match Proxy.init addr with
  | .ok p => .ok (if p.ready then pool ++ [p] else pool)
  | .error .coreScrapeInvalidProxy => .ok pool
  | .error e => .error e

/-- Queue every surviving address (`for proxy in proxies:
self.__put_proxy(proxy)`) into an initially empty pool. -/
def putAll (addrs : List String) : Except PyErr (List Proxy) :=
  addrs.foldlM putProxy []

/-- The local variable `a` of `Rotator.retrieve`, across loop iterations: not
yet bound, bound to a response (`requests.get` succeeded), or bound to the
already-split token list of a previous source (line
`a = list(map(lambda x: x.strip(), a.text.split(sep)))`). -/
inductive AVar : Type
  | unbound
  | resp (text : String)
  | tokens (toks : List String)
  deriving DecidableEq, Repr

/-- The retry-count normalization run at the top of each source's iteration:
`if retry is None or retry < 1: retry = 1` (the rebinding persists into later
iterations). -/
def effRetry (retry : Option Int) : Int :=
  match retry with
  | none => 1
  | some r => if r < 1 then 1 else r

/-- The first successful attempt of the inner `for _ in range(retry)` loop
(`None` = every attempt raised a classified network error, which the loop
swallows). -/
def firstHit (f : Nat → Option String) (n : Nat) : Option String :=
  (List.range n).foldl (fun acc j => acc.orElse (fun _ => f j)) none

/-- The `for api in self.apilist` loop of `Rotator.retrieve`.  `env api j` is
the body attempt `j` of source `api` returned, or `None` when that attempt
raised a classified network error (an unclassified transport error would
propagate and is outside this model).  Each iteration normalizes `retry`,
runs the attempt loop (which rebinds `a` only on success), then evaluates
`a.text` — raising `NameError`/`UnboundLocalError` when `a` was never bound,
and `AttributeError` when `a` still holds a previous source's token list —
splits, strips, optionally applies `parse_func`, and accumulates. -/
def retrieveGo (env : String → Nat → Option String) (sep : Char)
    (parse_func : Option (List String → List String)) :
    List String → AVar → Option Int → List String →
    Except PyErr (List String)
  | [], _, _, proxies => .ok proxies
  | api :: rest, a, retry, proxies =>
      let retry' := effRetry retry
      let a' : AVar :=
        match firstHit (env api) retry'.toNat with
        | some body => .resp body
        | none => a
      match a' with
      | .unbound => .error .nameError
      | .tokens _ => .error .attributeError
      | .resp text =>
          let toks := (pySplitOn text sep).map pyStrip
          let newProxies :=
            proxies ++ (match parse_func with
              | some f => f toks
              | none => toks)
          retrieveGo env sep parse_func rest (.tokens toks) (some retry')
            newProxies

/-- The degenerate tokens `retrieve` discards
(`ignore = ['', ' ', ':', ' : ', ' :', ': ']`). -/
def ignoreTokens : List String := ["", " ", ":", " : ", " :", ": "]

/-- `Rotator.retrieve` up to (and including) deduplication: raise `TypeError`
when no proxy-source URLs are configured, run the source loop from an unbound
`a`, filter out the degenerate tokens and deduplicate
(`list({x for x in proxies if x not in ignore})`).  The set/`shuffle` order is
arbitrary in the source; it is represented canonically by first occurrence,
and the theorems about the queueing phase quantify over every ordering. -/
def retrieveCore (apilist : List String) (env : String → Nat → Option String)
    (sep : Char) (parse_func : Option (List String → List String))
    (retry0 : Option Int) : Except PyErr (List String) :=
  if apilist = [] then .error .typeError
  else
    (retrieveGo env sep parse_func apilist .unbound retry0 []).map
      (fun proxies => (proxies.filter (fun x => x ∉ ignoreTokens)).dedup)

lemma putAll_error_of_mem_bad :
    ∀ (l : List String) (pool : List Proxy),
      (∀ x ∈ l, Proxy.init x = .error .valueError ∨ ∃ p, Proxy.init x = .ok p) →
      (∃ x ∈ l, Proxy.init x = .error .valueError) →
      l.foldlM putProxy pool = .error .valueError := by
  intro l
  induction l with
  | nil =>
      intro pool _ hbad
      simp at hbad
  | cons x rest ih =>
      intro pool hall hbad
      rcases hall x (List.mem_cons_self _ _) with hx | ⟨p, hx⟩
      · simp [List.foldlM, putProxy, hx, Bind.bind, Except.bind]
      · have hbad' : ∃ y ∈ rest, Proxy.init y = .error .valueError := by
          rcases hbad with ⟨y, hy, hyv⟩
          rcases List.mem_cons.mp hy with rfl | hyr
          · rw [hx] at hyv
            exact absurd hyv (by simp)
          · exact ⟨y, hyr, hyv⟩
        have hall' : ∀ y ∈ rest,
            Proxy.init y = .error .valueError ∨ ∃ q, Proxy.init y = .ok q :=
          fun y hy => hall y (List.mem_cons_of_mem _ hy)
        simp only [List.foldlM, putProxy, hx, Bind.bind, Except.bind]
        exact ih _ hall' hbad'

/-! ### Claim C2 -/

/-- The body a source returns in claim C2's scenario: the tokens
`["1.2.3.4:8080", "", " ", "bad", "5.6.7.8:3128"]` joined by the default
separator. -/
def apiBodyC2 : String := "1.2.3.4:8080\n\n \nbad\n5.6.7.8:3128"

/-- A single proxy source whose every attempt returns `apiBodyC2`. -/
def envC2 : String → Nat → Option String := fun _ _ => some apiBodyC2

/-- Claim C2 fails on the code: in the scenario
`["1.2.3.4:8080", "", " ", "bad", "5.6.7.8:3128"]` the degenerate tokens are
indeed discarded, but the malformed `"bad"` survives to the queueing phase;
`Proxy.__init__("bad")` raises `ValueError` — not `CoreScrapeInvalidProxy`,
the only exception `__put_proxy` swallows — so `retrieve` aborts with an
uncaught `ValueError` (whatever order the shuffle produced) instead of
yielding exactly the two well-formed addresses. -/
theorem retrieve_malformed_token_aborts (order : List String)
    (hperm : order.Perm ["1.2.3.4:8080", "bad", "5.6.7.8:3128"]) :
    retrieveCore ["http://api"] envC2 '\n' none none =
      .ok ["1.2.3.4:8080", "bad", "5.6.7.8:3128"] ∧
    Proxy.init "bad" = .error .valueError ∧
    putAll order = .error .valueError := by
  refine ⟨by rfl, by rfl, ?_⟩
  have hall : ∀ x ∈ order,
      Proxy.init x = .error .valueError ∨ ∃ p, Proxy.init x = .ok p := by
    intro x hx
    rw [hperm.mem_iff] at hx
    simp only [List.mem_cons, List.not_mem_nil, or_false] at hx
    rcases hx with rfl | rfl | rfl
    · right; exact ⟨_, rfl⟩
    · left; rfl
    · right; exact ⟨_, rfl⟩
  have hbad : ∃ x ∈ order, Proxy.init x = .error .valueError := by
    refine ⟨"bad", ?_, rfl⟩
    rw [hperm.mem_iff]
    simp
  have h := putAll_error_of_mem_bad order [] hall hbad
  simpa [putAll] using h

/-- Witness for claim C2's theorem at the identity shuffle order. -/
theorem retrieve_malformed_token_aborts_witness :
    retrieveCore ["http://api"] envC2 '\n' none none =
      .ok ["1.2.3.4:8080", "bad", "5.6.7.8:3128"] ∧
    Proxy.init "bad" = .error .valueError ∧
    putAll ["1.2.3.4:8080", "bad", "5.6.7.8:3128"] = .error .valueError :=
  retrieve_malformed_token_aborts ["1.2.3.4:8080", "bad", "5.6.7.8:3128"]
    (List.Perm.refl _)

/-! ### Claim C10 -/

/-- Claim C10: when every retry attempt for a source fails with a classified
network error, `retrieve` raises an unhandled, unclassified error instead of
skipping the source: with the first source failing, `a` was never bound and
`a.text` raises `NameError` (`UnboundLocalError`); with a later source
failing, `a` still holds the previous source's already-split token list and
`a.text` raises `AttributeError`. -/
theorem retrieve_failed_source_crashes (env : String → Nat → Option String)
    (sep : Char) (pf : Option (List String → List String))
    (retry0 : Option Int) (api : String) (rest toks proxies : List String)
    (hfail : firstHit (env api) (effRetry retry0).toNat = none) :
    retrieveCore (api :: rest) env sep pf retry0 = .error .nameError ∧
    retrieveGo env sep pf (api :: rest) (.tokens toks) retry0 proxies =
      .error .attributeError := by
  constructor
  · simp [retrieveCore, retrieveGo, hfail, Except.map]
  · simp [retrieveGo, hfail]

/-- Witness for claim C10: a one-source configuration whose attempts all
fail, and the same failure on a second source after a successful first
one. -/
theorem retrieve_failed_source_crashes_witness :
    retrieveCore ["http://a"] (fun _ _ => none) '\n' none none =
      .error .nameError ∧
    retrieveGo (fun _ _ => none) '\n' none ["http://a"]
        (.tokens ["1.2.3.4:8080"]) none [] = .error .attributeError :=
  retrieve_failed_source_crashes (fun _ _ => none) '\n' none none "http://a"
    [] ["1.2.3.4:8080"] [] rfl
